import Mathlib

/-!
Verification of the GroupChat repository-synchronization and message-aggregation
engine against its natural-language specification.

The embedding below models, in Lean, the data model and the operations of
`src/server.py` (`DatabaseManager`, `MessageHandler`) and
`src/github_manager.py` (`GitHubManager`):

* the two SQLite tables `repositories` and `messages` created by
  `DatabaseManager._init_database` become Lean structures and a `DB` record;
* `add_repository`, `save_message`, `push_to_github`, `get_messages` and the
  HTTP handlers `do_GET` / `do_POST` for `/messages` become Lean functions;
* `GitHubManager.get_all_repository_messages` and `_handle_rate_limit` are
  modelled with their external effects (HTTP fetches, `time.sleep`) made
  explicit as parameters / return values.

SQLite's `ORDER BY m.timestamp` with no tie-break gives no guarantee on the
relative order of rows with equal timestamps, so listing order is additionally
modelled relationally (`IsOrderedListing`): a valid query answer is any
permutation of the joined rows that is sorted by timestamp.
-/

namespace GroupChat

/-- One row of the `repositories` table (`_init_database`, server.py). -/
structure RepoRow where
  id : Nat
  name : String
  url : String
  last_synced : Option String
  is_active : Bool
  deriving Repr, DecidableEq

/-- One row of the `messages` table (`_init_database`, server.py).
`author`, `url`, `message_type`, `parent_title` are nullable in the schema;
`author` is modelled as `String` because every insert in the source passes a
string for it. -/
structure MessageRow where
  id : Nat
  repository_id : Nat
  content : String
  timestamp : String
  author : String
  url : Option String
  message_type : Option String
  parent_title : Option String
  deriving Repr, DecidableEq

/-- The database state: the two tables plus the AUTOINCREMENT counters. -/
structure DB where
  repositories : List RepoRow
  messages : List MessageRow
  nextRepoId : Nat
  nextMessageId : Nat
  deriving Repr, DecidableEq

/-- The state `DatabaseManager._init_database` produces on a fresh file:
both tables empty except for the default repository
`INSERT OR IGNORE INTO repositories (id, name, url) VALUES (1, 'default', 'default')`. -/
def initDB : DB :=
  { repositories := [{ id := 1, name := "default", url := "default",
                       last_synced := none, is_active := true }]
    messages := []
    nextRepoId := 2
    nextMessageId := 1 }

/-- `DatabaseManager.add_repository` (server.py):
`INSERT OR IGNORE INTO repositories (name, url) VALUES (?, ?)` against the
`UNIQUE(url)` constraint; when the insert is ignored (`rowcount == 0`) the id
of the existing row with that url is selected and returned, otherwise
`lastrowid` of the fresh row is returned. -/
def add_repository (db : DB) (name url : String) : Nat × DB :=
  match db.repositories.find? (fun r => r.url = url) with
  | some r => (r.id, db)
  | none =>
      let rid := db.nextRepoId
      (rid,
       { db with
         repositories := db.repositories ++
           [{ id := rid, name := name, url := url,
              last_synced := none, is_active := true }]
         nextRepoId := rid + 1 })

/-- The outcome of the external `git` subprocesses run by
`DatabaseManager.push_to_github`: the `git add` result, the stdout of
`git status --porcelain`, the `git commit` result and the `git push` result.
An `Except.error` value models a `subprocess.CalledProcessError`. -/
structure PushEnv where
  stage : Except String Unit
  statusOutput : String
  commitR : Except String Unit
  pushR : Except String Unit
  deriving Repr

/-- Python's `str.strip()` with no argument: remove leading and trailing
whitespace.  Defined by structural recursion over the character list so that
concrete instances evaluate inside proofs. -/
def pyStrip (s : String) : String :=
  ⟨((s.data.dropWhile Char.isWhitespace).reverse.dropWhile Char.isWhitespace).reverse⟩

/-- `DatabaseManager.push_to_github` (server.py): stage `database/messages.db`,
stop with success when `git status --porcelain` prints nothing, else commit and
push; every `CalledProcessError` is caught and turned into
`(False, "Git operation failed: ...")`. -/
def push_to_github (env : PushEnv) : Bool × String :=
  match env.stage with
  | .error e => (false, "Git operation failed: " ++ e)
  | .ok _ =>
    if pyStrip env.statusOutput = "" then (true, "No changes to commit")
    else
      match env.commitR with
      | .error e => (false, "Git operation failed: " ++ e)
      | .ok _ =>
        match env.pushR with
        | .error e => (false, "Git operation failed: " ++ e)
        | .ok _ => (true, "Successfully pushed to GitHub")

/-- The row `DatabaseManager.save_message` inserts:
`INSERT INTO messages (repository_id, content, timestamp, author, message_type)
VALUES (?, ?, ?, ?, 'local')` — `url` and `parent_title` stay NULL. -/
def localMessageRow (mid repository_id : Nat) (content timestamp author : String) :
    MessageRow :=
  { id := mid, repository_id := repository_id, content := content,
    timestamp := timestamp, author := author, url := none,
    message_type := some "local", parent_title := none }

/-- `DatabaseManager.save_message` (server.py): insert the local message row,
commit, then call `push_to_github`; when the push reports failure only a
warning line is printed, and the already-committed `message_id` is returned
either way.  The returned triple is `(message_id, new database state, printed
warnings)`. -/
def save_message (db : DB) (env : PushEnv) (repository_id : Nat)
    (content timestamp author : String) : Nat × DB × List String :=
  let mid := db.nextMessageId
  let row := localMessageRow mid repository_id content timestamp author
  let db' := { db with messages := db.messages ++ [row], nextMessageId := mid + 1 }
  let pr := push_to_github env
  let warns := if pr.1 then [] else ["Warning: Failed to push to GitHub: " ++ pr.2]
  (mid, db', warns)

/-- A JSON-ish value, as produced by the handlers' `send_json_response`. -/
inductive JVal where
  | num (n : Nat)
  | str (s : String)
  deriving Repr, DecidableEq

/-- The `sort_order` argument of `get_messages` ("ASC" / "DESC",
default "DESC" in the Python signature). -/
inductive SortOrder where
  | ASC
  | DESC
  deriving Repr, DecidableEq

/-- One row of the join
`FROM messages m JOIN repositories r ON m.repository_id = r.id`:
a message row together with the matched repository's name
(`r.name as repository_name`). -/
structure JoinedRow where
  msg : MessageRow
  repository_name : String
  deriving Repr, DecidableEq

/-- The inner join of `get_messages` before `ORDER BY`: every
(message, repository) pair with `m.repository_id = r.id`.  A message whose
`repository_id` matches no repository row contributes nothing. -/
def joinRows (db : DB) : List JoinedRow :=
  db.messages.flatMap (fun m =>
    (db.repositories.filter (fun r => r.id = m.repository_id)).map
      (fun r => { msg := m, repository_name := r.name }))

/-- SQLite compares TEXT values under the default BINARY collation: bytewise
comparison of the UTF-8 encodings, which coincides with lexicographic
comparison of the codepoints. -/
def charListLe : List Char → List Char → Bool
  | [], _ => true
  | _ :: _, [] => false
  | a :: as, b :: bs => if a = b then charListLe as bs else decide (a.toNat < b.toNat)

/-- `a <= b` on two TEXT values under SQLite's BINARY collation. -/
def strLe (a b : String) : Bool := charListLe a.data b.data

/-- `ORDER BY m.timestamp ASC` as a relation on joined rows. -/
def tsLe (a b : JoinedRow) : Prop :=
  strLe a.msg.timestamp b.msg.timestamp = true

/-- `ORDER BY m.timestamp DESC` as a relation on joined rows. -/
def tsGe (a b : JoinedRow) : Prop :=
  strLe b.msg.timestamp a.msg.timestamp = true

instance : DecidableRel tsLe := fun _a _b =>
  inferInstanceAs (Decidable (_ = true))

instance : DecidableRel tsGe := fun _a _b =>
  inferInstanceAs (Decidable (_ = true))

/-- The ordering relation `ORDER BY m.timestamp {sort_order}` uses. -/
def ordRel : SortOrder → (JoinedRow → JoinedRow → Prop)
  | .ASC => tsLe
  | .DESC => tsGe

instance instDecidableOrdRel (ord : SortOrder) : DecidableRel (ordRel ord) :=
  match ord with
  | .ASC => inferInstanceAs (DecidableRel tsLe)
  | .DESC => inferInstanceAs (DecidableRel tsGe)

/-- SQLite guarantees only that the rows come out sorted by `m.timestamp` in
the requested direction; rows with equal timestamps may appear in any relative
order.  So a valid answer of the full (un-limited) listing query is any
permutation of the joined rows that is sorted by the requested relation. -/
def IsOrderedListing (db : DB) (ord : SortOrder) (result : List JoinedRow) : Prop :=
  result.Perm (joinRows db) ∧ result.Sorted (ordRel ord)

instance (db : DB) (ord : SortOrder) (result : List JoinedRow) :
    Decidable (IsOrderedListing db ord result) :=
  inferInstanceAs (Decidable (_ ∧ _))

/-- One deterministic refinement of the query's ordering contract, used for the
executable model: a stable sort by timestamp (rows with equal timestamps keep
table order). -/
def sortedJoin (db : DB) (ord : SortOrder) : List JoinedRow :=
  (joinRows db).insertionSort (ordRel ord)

/-- `LIMIT` applied after `OFFSET`: `get_messages` adds `LIMIT {limit}` only
when a limit was passed. -/
def applyLimit : Option Nat → List JoinedRow → List JoinedRow
  | none, l => l
  | some n, l => l.take n

/-- The row dictionary `get_messages` builds for each fetched row — exactly
the keys `id`, `content`, `timestamp`, `author`, `repository` (server.py,
lines 195-201).  Note that `message_type` is not among them. -/
def rowDict (j : JoinedRow) : List (String × JVal) :=
  [("id", .num j.msg.id),
   ("content", .str j.msg.content),
   ("timestamp", .str j.msg.timestamp),
   ("author", .str j.msg.author),
   ("repository", .str j.repository_name)]

/-- The joined rows `get_messages` fetches after `ORDER BY`, `OFFSET` and
`LIMIT` (the cursor's contents, before the per-row dictionary is built). -/
def listingRows (db : DB) (limit : Option Nat) (offset : Nat) (ord : SortOrder) :
    List JoinedRow :=
  applyLimit limit ((sortedJoin db ord).drop offset)

/-- `DatabaseManager.get_messages` (server.py): run the join query ordered by
`m.timestamp {sort_order}` with optional `LIMIT`/`OFFSET`, and return one
five-key dictionary per row. -/
def get_messages (db : DB) (limit : Option Nat) (offset : Nat) (ord : SortOrder) :
    List (List (String × JVal)) :=
  (listingRows db limit offset ord).map rowDict

/-- `MessageHandler.do_GET` for a path starting with `/messages` (server.py,
lines 240-242): the query string is never parsed; the handler always calls
`get_messages(limit=50)`, so `offset` and `sort_order` take their Python
defaults `0` and `"DESC"`, and the bare list of row dictionaries is the whole
JSON response. -/
def handle_get_messages (db : DB) : List (List (String × JVal)) :=
  get_messages db (some 50) 0 .DESC

/-- The JSON body of a `POST /messages` request as read by `do_POST`:
`data.get('content', ...)` and `data.get('author', ...)`. -/
structure PostData where
  content : Option String
  author : Option String
  deriving Repr, DecidableEq

/-- A handler response: HTTP 200 with a JSON object, or HTTP 400. -/
inductive HResponse where
  | ok (body : List (String × JVal))
  | badRequest (error : String)
  deriving Repr, DecidableEq

/-- `MessageHandler.do_POST` for `/messages` (server.py, lines 336-353):
`content = data.get('content', '').strip()`; an empty result is rejected with
HTTP 400 `'Message content is required'` before anything touches the store;
otherwise `save_message` runs against repository 1 with
`author = data.get('author', 'Anonymous')` and the current UTC time, and the
handler replies `{'status': 'success'}`.  Returns (response, new database
state, printed warnings). -/
def handle_post_message (db : DB) (env : PushEnv) (now : String) (data : PostData) :
    HResponse × DB × List String :=
  let content := pyStrip (data.content.getD "")
  let author := data.author.getD "Anonymous"
  if content = "" then
    (.badRequest "Message content is required", db, [])
  else
    let r := save_message db env 1 content now author
    (.ok [("status", .str "success")], r.2.1, r.2.2)

/-- A normalized item produced by `GitHubManager` (github_manager.py): the
common dictionary shape `{content, timestamp, author, url, type}` plus the
optional `title` (issues, discussions) or `parent_title` (comments). -/
structure RemoteItem where
  content : String
  timestamp : String
  author : String
  url : String
  itemType : String
  title : Option String
  parent_title : Option String
  deriving Repr, DecidableEq

/-- Python's stable `messages.sort(key=lambda x: x['timestamp'], reverse=True)`
at the end of `get_all_repository_messages`. -/
def itemGe (a b : RemoteItem) : Prop := strLe b.timestamp a.timestamp = true

instance : DecidableRel itemGe := fun _a _b =>
  inferInstanceAs (Decidable (_ = true))

/-- `GitHubManager.get_all_repository_messages` (github_manager.py): the issue
path and the discussion path are fetched under two separate `try` blocks —
a raising path contributes nothing beyond a printed warning, the other path's
items are kept — and the concatenation is sorted by timestamp, newest first.
The two `Except` arguments stand for the outcomes of
`get_repository_issues` and `get_repository_discussions`. -/
def get_all_repository_messages (issueFetch : Except String (List RemoteItem))
    (discussionFetch : Except String (List RemoteItem)) : List RemoteItem :=
  let fromIssues := match issueFetch with
    | .ok l => l
    | .error _ => []
  let fromDiscussions := match discussionFetch with
    | .ok l => l
    | .error _ => []
  (fromIssues ++ fromDiscussions).insertionSort itemGe

/-- `GitHubManager._handle_rate_limit` (github_manager.py): with the parsed
`X-RateLimit-Remaining` and `X-RateLimit-Reset` header values and the current
clock, return the number of seconds the client sleeps before its next request:
`reset_time - time.time()` when `remaining < 10` and that difference is
positive, else zero. -/
def handle_rate_limit (remaining : Nat) (reset_time now : Int) : Int :=
  if remaining < 10 then
    let sleep_time := reset_time - now
    if sleep_time > 0 then sleep_time else 0
  else 0

/-- Modelled from the spec: the Sync Scheduler's merge step (spec §4.2,
`appendMessages(repositoryId, items[]) → count`) has no implementation under
src/; per the spec it bulk-inserts each normalized item as one Message row
with `message_type` taken from the item.  The insert itself follows the
`messages` table of `DatabaseManager._init_database` (server.py), whose schema
carries no uniqueness constraint on `(repository_id, url)`, so every item
becomes a fresh row unconditionally. -/
def appendMessages (db : DB) (repoId : Nat) (items : List RemoteItem) : DB :=
  items.foldl (fun d it =>
    { d with
      messages := d.messages ++
        [{ id := d.nextMessageId, repository_id := repoId, content := it.content,
           timestamp := it.timestamp, author := it.author, url := some it.url,
           message_type := some it.itemType, parent_title := it.parent_title }]
      nextMessageId := d.nextMessageId + 1 }) db

/-- The number of stored message rows carrying a given
`(repository_id, url)` key. -/
def countByRepoUrl (db : DB) (repoId : Nat) (u : String) : Nat :=
  (db.messages.filter (fun m => m.repository_id == repoId && m.url == some u)).length

/-! ### Concrete scenario states used by counterexamples and witnesses -/

/-- A push environment in which every git step succeeds. -/
def envOk : PushEnv :=
  { stage := .ok (), statusOutput := " M database/messages.db",
    commitR := .ok (), pushR := .ok () }

/-- A push environment whose `git push` fails (e.g. network failure). -/
def envPushFail : PushEnv :=
  { stage := .ok (), statusOutput := " M database/messages.db",
    commitR := .ok (), pushR := .error "network failure" }

/-- A remote item as normalized from one issue of the mocked remote. -/
def remoteItemU : RemoteItem :=
  { content := "c", timestamp := "2025-01-01T00:00:00Z", author := "x",
    url := "https://example.test/o/r/issues/1", itemType := "issue",
    title := some "t", parent_title := none }

/-- The state after `POST /messages {content:"hi", author:"alice"}` against a
fresh database (`do_POST` → `save_message`), with a succeeding push. -/
def scenarioPost : HResponse × DB × List String :=
  handle_post_message initDB envOk "2025-01-01T00:00:00+00:00"
    { content := some "hi", author := some "alice" }

/-- A stored message row used in tie-breaking and orphan scenarios. -/
def mkMsg (mid rid : Nat) (content ts : String) : MessageRow :=
  { id := mid, repository_id := rid, content := content, timestamp := ts,
    author := "x", url := none, message_type := some "local", parent_title := none }

/-- Two messages with the same timestamp: the schema's `ORDER BY m.timestamp`
gives them no determined relative order. -/
def tieDB : DB :=
  { repositories := initDB.repositories
    messages := [mkMsg 1 1 "a" "2025-01-01T00:00:00Z", mkMsg 2 1 "b" "2025-01-01T00:00:00Z"]
    nextRepoId := 2
    nextMessageId := 3 }

/-- The two joined rows of `tieDB`. -/
def tieRowA : JoinedRow := { msg := mkMsg 1 1 "a" "2025-01-01T00:00:00Z", repository_name := "default" }

/-- Second joined row of `tieDB`. -/
def tieRowB : JoinedRow := { msg := mkMsg 2 1 "b" "2025-01-01T00:00:00Z", repository_name := "default" }

/-- Two messages with distinct timestamps. -/
def distinctDB : DB :=
  { repositories := initDB.repositories
    messages := [mkMsg 1 1 "a" "2025-01-01T00:00:00Z", mkMsg 2 1 "b" "2025-01-02T00:00:00Z"]
    nextRepoId := 2
    nextMessageId := 3 }

/-- First joined row of `distinctDB` (earlier timestamp). -/
def distinctRowA : JoinedRow := { msg := mkMsg 1 1 "a" "2025-01-01T00:00:00Z", repository_name := "default" }

/-- Second joined row of `distinctDB` (later timestamp). -/
def distinctRowB : JoinedRow := { msg := mkMsg 2 1 "b" "2025-01-02T00:00:00Z", repository_name := "default" }

/-- A database holding one ordinary message and one orphan message whose
`repository_id` (99) matches no repository row — insertable because the
connection from `get_connection` never enables foreign-key enforcement. -/
def orphanDB : DB :=
  { repositories := initDB.repositories
    messages := [mkMsg 1 1 "a" "2025-01-01T00:00:00Z", mkMsg 2 99 "b" "2025-01-02T00:00:00Z"]
    nextRepoId := 2
    nextMessageId := 3 }

/-- A database with 21 messages all joining to the default repository:
more rows than the limit of 20 the spec claims as the default. -/
def db21 : DB :=
  { repositories := initDB.repositories
    messages := (List.range 21).map (fun i => mkMsg (i + 1) 1 "m" "2025-01-01T00:00:00Z")
    nextRepoId := 2
    nextMessageId := 22 }

/-! ### Helper lemmas -/

/-- Two pairwise facts about one list combine pointwise. -/
theorem pairwise_and_of {α} {R S : α → α → Prop} :
    ∀ {l : List α}, l.Pairwise R → l.Pairwise S →
      l.Pairwise (fun a b => R a b ∧ S a b) := by
  intro l h1 h2
  induction l with
  | nil => exact List.Pairwise.nil
  | cons a t ih =>
    rw [List.pairwise_cons] at h1 h2 ⊢
    exact ⟨fun b hb => ⟨h1.1 b hb, h2.1 b hb⟩, ih h1.2 h2.2⟩

/-- The BINARY collation is antisymmetric. -/
theorem charListLe_antisymm : ∀ {as bs : List Char},
    charListLe as bs = true → charListLe bs as = true → as = bs
  | [], [], _, _ => rfl
  | [], _ :: _, _, h2 => by simp [charListLe] at h2
  | _ :: _, [], h1, _ => by simp [charListLe] at h1
  | a :: as, b :: bs, h1, h2 => by
    by_cases hab : a = b
    · subst hab
      simp only [charListLe, if_pos rfl] at h1 h2
      rw [charListLe_antisymm h1 h2]
    · have hba : ¬ b = a := fun h => hab h.symm
      simp only [charListLe, if_neg hab, if_neg hba, decide_eq_true_eq] at h1 h2
      omega

/-- TEXT comparison under the BINARY collation is antisymmetric. -/
theorem strLe_antisymm {a b : String} (h1 : strLe a b = true)
    (h2 : strLe b a = true) : a = b := by
  cases a with
  | mk da =>
    cases b with
    | mk db => exact congrArg String.mk (charListLe_antisymm h1 h2)

/-- Membership in the joined relation, unfolded. -/
theorem mem_joinRows_iff (db : DB) (j : JoinedRow) :
    j ∈ joinRows db ↔ ∃ m ∈ db.messages, ∃ r ∈ db.repositories,
      r.id = m.repository_id ∧ j = { msg := m, repository_name := r.name } := by
  simp only [joinRows, List.mem_flatMap, List.mem_map, List.mem_filter,
    decide_eq_true_eq]
  constructor
  · rintro ⟨m, hm, r, ⟨hr, hid⟩, hj⟩
    exact ⟨m, hm, r, hr, hid, hj.symm⟩
  · rintro ⟨m, hm, r, hr, hid, hj⟩
    exact ⟨m, hm, r, ⟨hr, hid⟩, hj.symm⟩

/-- Every fetched row of `get_messages` comes from the join: `OFFSET`,
`LIMIT` and `ORDER BY` only select and rearrange joined rows. -/
theorem mem_listingRows_subset (db : DB) (limit : Option Nat) (offset : Nat)
    (ord : SortOrder) (j : JoinedRow) (hj : j ∈ listingRows db limit offset ord) :
    j ∈ joinRows db := by
  have h1 : j ∈ (sortedJoin db ord).drop offset := by
    cases limit with
    | none => exact hj
    | some n => exact List.mem_of_mem_take hj
  have h2 : j ∈ sortedJoin db ord := List.mem_of_mem_drop h1
  exact (List.perm_insertionSort (ordRel ord) (joinRows db)).mem_iff.mp h2

/-! ### Claims -/

/-- Claim C1 (code bug, spec §3/§9): re-running a sync merge with the same
remote items should leave one Message row per `(repository_id, url)`, but the
`messages` schema has no such uniqueness and the modelled merge plainly
inserts: merging the same single item twice into repository 1 leaves two rows
with its `(repository_id, url)` key. -/
theorem sync_merge_duplicates :
    countByRepoUrl
      (appendMessages (appendMessages initDB 1 [remoteItemU]) 1 [remoteItemU])
      1 "https://example.test/o/r/issues/1" = 2 := by decide

/-- Claim C4: a durability-push failure never undoes a local append — when
`push_to_github` reports failure, `save_message` still returns the fresh
message id, the inserted row is stored, and the failure surfaces only as the
printed warning line. -/
theorem save_message_push_failure_nonfatal (db : DB) (env : PushEnv)
    (repository_id : Nat) (content timestamp author : String)
    (h : (push_to_github env).1 = false) :
    (save_message db env repository_id content timestamp author).1 = db.nextMessageId ∧
    (save_message db env repository_id content timestamp author).2.1.messages =
      db.messages ++
        [localMessageRow db.nextMessageId repository_id content timestamp author] ∧
    (save_message db env repository_id content timestamp author).2.2 =
      ["Warning: Failed to push to GitHub: " ++ (push_to_github env).2] := by
  refine ⟨rfl, rfl, ?_⟩
  simp [save_message, h]

/-- Witness for C4 at a concrete failing push environment. -/
theorem save_message_push_failure_nonfatal_witness :
    (push_to_github envPushFail).1 = false ∧
    ((save_message initDB envPushFail 1 "hi" "2025-01-01" "alice").1 = initDB.nextMessageId ∧
     (save_message initDB envPushFail 1 "hi" "2025-01-01" "alice").2.1.messages =
       initDB.messages ++ [localMessageRow initDB.nextMessageId 1 "hi" "2025-01-01" "alice"] ∧
     (save_message initDB envPushFail 1 "hi" "2025-01-01" "alice").2.2 =
       ["Warning: Failed to push to GitHub: " ++ (push_to_github envPushFail).2]) :=
  ⟨by decide,
   save_message_push_failure_nonfatal initDB envPushFail 1 "hi" "2025-01-01" "alice" (by decide)⟩

/-- Claim C6: when a response reports remaining quota strictly below the
low-water mark 10 and a reset time in the future, the client sleeps exactly
until the reset time — the suspension lasts `reset_time - now`, so the next
request cannot be issued before `reset_time`. -/
theorem rate_limit_backoff (remaining : Nat) (reset_time now : Int)
    (hrem : remaining < 10) (hfut : now < reset_time) :
    handle_rate_limit remaining reset_time now = reset_time - now ∧
    now + handle_rate_limit remaining reset_time now = reset_time := by
  have hpos : reset_time - now > 0 := by omega
  have h1 : handle_rate_limit remaining reset_time now = reset_time - now := by
    simp [handle_rate_limit, hrem, hpos]
  exact ⟨h1, by rw [h1]; omega⟩

/-- Witness for C6 at the spec's scenario: `remaining = 5`,
`reset = now + 2s`. -/
theorem rate_limit_backoff_witness :
    5 < 10 ∧ (0 : Int) < 2 ∧
    (handle_rate_limit 5 2 0 = 2 - 0 ∧ 0 + handle_rate_limit 5 2 0 = 2) :=
  ⟨by decide, by decide, rate_limit_backoff 5 2 0 (by decide) (by decide)⟩

/-- Claim C7: per-path fault isolation in the remote client — when the issue
path raises and the discussion path succeeds, the combined fetch still returns
exactly the discussion items (sorted), and symmetrically. -/
theorem fetch_path_fault_isolation (e1 e2 : String)
    (issues discussions : List RemoteItem) :
    (get_all_repository_messages (.error e1) (.ok discussions)).Perm discussions ∧
    (get_all_repository_messages (.ok issues) (.error e2)).Perm issues := by
  constructor
  · simpa [get_all_repository_messages] using
      List.perm_insertionSort itemGe discussions
  · simpa [get_all_repository_messages] using
      List.perm_insertionSort itemGe issues

/-- Claim C8: a `POST /messages` whose content is missing, empty or
whitespace-only is rejected with the 400 validation error and leaves the
database — in particular the message table — untouched. -/
theorem post_blank_content_rejected (db : DB) (env : PushEnv) (now : String)
    (data : PostData) (h : pyStrip (data.content.getD "") = "") :
    handle_post_message db env now data =
      (.badRequest "Message content is required", db, []) := by
  simp [handle_post_message, h]

/-- Witness for C8 at a whitespace-only content value. -/
theorem post_blank_content_rejected_witness :
    pyStrip ((some "   " : Option String).getD "") = "" ∧
    handle_post_message initDB envOk "2025-01-01T00:00:00+00:00"
        { content := some "   ", author := some "bob" } =
      (.badRequest "Message content is required", initDB, []) :=
  ⟨by decide,
   post_blank_content_rejected initDB envOk "2025-01-01T00:00:00+00:00"
     { content := some "   ", author := some "bob" } (by decide)⟩

/-- Claim C2 (corrected): for the store-level read, the number of returned
rows is `min limit (total - offset)` (with truncated subtraction supplying the
`max 0`), and the `/messages` handler never parses pagination parameters — it
always calls `get_messages` with `limit = 50`, `offset = 0`, `sort = DESC`
and returns the bare row list (no `has_more`). -/
theorem get_messages_page_size (db : DB) (limit offset : Nat) (ord : SortOrder) :
    (get_messages db (some limit) offset ord).length =
      min limit ((joinRows db).length - offset) ∧
    handle_get_messages db = get_messages db (some 50) 0 .DESC := by
  refine ⟨?_, rfl⟩
  simp [get_messages, listingRows, applyLimit, sortedJoin,
    List.length_insertionSort]

/-- Counterexample to C2 as stated: with 21 stored messages and a request that
supplies no parameters, the handler returns all 21 rows, not the
`min(20, total - 0) = 20` the claimed default `limit = 20` would give. -/
theorem default_page_not_twenty :
    (handle_get_messages db21).length ≠ min 20 ((joinRows db21).length - 0) := by
  decide

/-- Claim C3: repository registration is idempotent on `url` — the second
`add_repository` call with the same url returns the same id, changes nothing,
and exactly one Repository row with that url remains (given the `UNIQUE(url)`
invariant that at most one such row existed before). -/
theorem add_repository_idempotent (db : DB) (name1 name2 url : String)
    (h : (db.repositories.filter (fun r => r.url = url)).length ≤ 1) :
    (add_repository db name1 url).1 =
      (add_repository (add_repository db name1 url).2 name2 url).1 ∧
    (add_repository (add_repository db name1 url).2 name2 url).2 =
      (add_repository db name1 url).2 ∧
    ((add_repository db name1 url).2.repositories.filter
        (fun r => r.url = url)).length = 1 := by
  cases hfind : db.repositories.find? (fun r => r.url = url) with
  | some r =>
    have hmem : r ∈ db.repositories := List.mem_of_find?_eq_some hfind
    have hurl : r.url = url := by
      have := List.find?_some hfind
      simpa using this
    have hfmem : r ∈ db.repositories.filter (fun x => x.url = url) :=
      List.mem_filter.mpr ⟨hmem, by simp [hurl]⟩
    have hlen1 : 1 ≤ (db.repositories.filter (fun x => x.url = url)).length :=
      List.length_pos_of_mem hfmem
    refine ⟨?_, ?_, ?_⟩
    · simp [add_repository, hfind]
    · simp [add_repository, hfind]
    · simp only [add_repository, hfind]
      omega
  | none =>
    have hnone : ∀ x ∈ db.repositories, ¬ x.url = url := by
      intro x hx
      have := List.find?_eq_none.mp hfind x hx
      simpa using this
    have hfilter : db.repositories.filter (fun x => x.url = url) = [] :=
      List.filter_eq_nil_iff.mpr (by
        intro x hx
        simpa using hnone x hx)
    refine ⟨?_, ?_, ?_⟩
    · simp [add_repository, hfind, List.find?_append, List.find?]
    · simp [add_repository, hfind, List.find?_append, List.find?]
    · simp [add_repository, hfind, List.filter_append, hfilter]

/-- Witness for C3: registering the same url twice on a fresh database. -/
theorem add_repository_idempotent_witness :
    ((initDB.repositories.filter (fun r => r.url = "https://g.test/o/r")).length ≤ 1) ∧
    ((add_repository initDB "A" "https://g.test/o/r").1 =
       (add_repository (add_repository initDB "A" "https://g.test/o/r").2 "B"
         "https://g.test/o/r").1 ∧
     (add_repository (add_repository initDB "A" "https://g.test/o/r").2 "B"
         "https://g.test/o/r").2 =
       (add_repository initDB "A" "https://g.test/o/r").2 ∧
     ((add_repository initDB "A" "https://g.test/o/r").2.repositories.filter
         (fun r => r.url = "https://g.test/o/r")).length = 1) :=
  ⟨by decide,
   add_repository_idempotent initDB "A" "B" "https://g.test/o/r" (by decide)⟩

/-- Counterexample to C5 as stated: with two stored messages sharing one
timestamp, `[rowA, rowB]` is a valid `ORDER BY timestamp ASC` answer and also
a valid `ORDER BY timestamp DESC` answer (the query has no tie-break), yet the
two are not reverses of each other. -/
theorem listing_reversal_fails_on_ties :
    ¬ (∀ (db : DB) (asc desc : List JoinedRow),
        IsOrderedListing db .ASC asc → IsOrderedListing db .DESC desc →
        asc = desc.reverse) := by
  intro h
  exact absurd
    (h tieDB [tieRowA, tieRowB] [tieRowA, tieRowB] (by decide) (by decide))
    (by decide)

/-- Claim C5 (corrected): when the stored timestamps are pairwise distinct —
the situation the missing `id` tie-break would otherwise force — every valid
ASC listing is exactly the reverse of every valid DESC listing. -/
theorem listing_asc_reverse_desc (db : DB) (asc desc : List JoinedRow)
    (hts : (joinRows db).Pairwise fun a b => a.msg.timestamp ≠ b.msg.timestamp)
    (ha : IsOrderedListing db .ASC asc) (hd : IsOrderedListing db .DESC desc) :
    asc = desc.reverse := by
  have hsymm : ∀ {x y : JoinedRow},
      x.msg.timestamp ≠ y.msg.timestamp → y.msg.timestamp ≠ x.msg.timestamp :=
    fun h => Ne.symm h
  haveI : IsAntisymm JoinedRow
      (fun a b => tsLe a b ∧ a.msg.timestamp ≠ b.msg.timestamp) :=
    ⟨fun a b h1 h2 => absurd (strLe_antisymm h1.1 h2.1) h1.2⟩
  have hle_asc : asc.Pairwise tsLe := ha.2
  have hne_asc : asc.Pairwise fun a b => a.msg.timestamp ≠ b.msg.timestamp :=
    (ha.1.pairwise_iff hsymm).mpr hts
  have hs_asc :
      asc.Pairwise (fun a b => tsLe a b ∧ a.msg.timestamp ≠ b.msg.timestamp) :=
    pairwise_and_of hle_asc hne_asc
  have hge_desc : desc.Pairwise tsGe := hd.2
  have hne_desc : desc.Pairwise fun a b => a.msg.timestamp ≠ b.msg.timestamp :=
    (hd.1.pairwise_iff hsymm).mpr hts
  have hrev_le : desc.reverse.Pairwise tsLe := by
    rw [List.pairwise_reverse]
    exact hge_desc
  have hrev_ne : desc.reverse.Pairwise
      fun a b => a.msg.timestamp ≠ b.msg.timestamp := by
    rw [List.pairwise_reverse]
    exact hne_desc.imp fun h => Ne.symm h
  have hs_rev :
      desc.reverse.Pairwise
        (fun a b => tsLe a b ∧ a.msg.timestamp ≠ b.msg.timestamp) :=
    pairwise_and_of hrev_le hrev_ne
  have hperm : asc.Perm desc.reverse :=
    ha.1.trans (hd.1.symm.trans (List.reverse_perm desc).symm)
  exact List.eq_of_perm_of_sorted hperm hs_asc hs_rev

/-- Witness for C5 (amended) on two messages with distinct timestamps. -/
theorem listing_asc_reverse_desc_witness :
    ((joinRows distinctDB).Pairwise
        fun a b => a.msg.timestamp ≠ b.msg.timestamp) ∧
    IsOrderedListing distinctDB .ASC [distinctRowA, distinctRowB] ∧
    IsOrderedListing distinctDB .DESC [distinctRowB, distinctRowA] ∧
    [distinctRowA, distinctRowB] =
      ([distinctRowB, distinctRowA] : List JoinedRow).reverse :=
  ⟨by decide, by decide, by decide,
   listing_asc_reverse_desc distinctDB [distinctRowA, distinctRowB]
     [distinctRowB, distinctRowA] (by decide) (by decide) (by decide)⟩

/-- Counterexample to C9 as stated: after posting
`{content:"hi", author:"alice"}`, no row of the subsequent `GET /messages`
response carries a `message_type` key at all, so none satisfies
`message_type == "local"`. -/
theorem get_messages_lacks_message_type :
    ¬ ∃ d ∈ handle_get_messages scenarioPost.2.1,
        d.lookup "message_type" = some (.str "local") ∧
        d.lookup "author" = some (.str "alice") := by decide

/-- Claim C9 (corrected): after posting `{content:"hi", author:"alice"}` the
stored Message row has `message_type = 'local'`, and the subsequent listing
returns exactly that message with `author == "alice"` — but the listing's row
object carries no `message_type` key, because `get_messages` projects only
`id`, `content`, `timestamp`, `author`, `repository`. -/
theorem post_then_get_local_author :
    scenarioPost.2.1.messages =
      [localMessageRow 1 1 "hi" "2025-01-01T00:00:00+00:00" "alice"] ∧
    (localMessageRow 1 1 "hi" "2025-01-01T00:00:00+00:00" "alice").message_type =
      some "local" ∧
    (handle_get_messages scenarioPost.2.1).map (fun d => d.lookup "author") =
      [some (.str "alice")] ∧
    (handle_get_messages scenarioPost.2.1).map (fun d => d.lookup "message_type") =
      [none] := by decide

/-- Claim C10: every row the listing returns joins to an existing Repository
row, and a stored message whose `repository_id` matches no repository (the
connection never enables foreign keys, so such a row is insertable) is
silently omitted from every listing rather than returned or reported. -/
theorem listing_omits_orphans (db : DB) (limit : Option Nat) (offset : Nat)
    (ord : SortOrder) :
    (∀ j ∈ listingRows db limit offset ord,
        ∃ r ∈ db.repositories, r.id = j.msg.repository_id) ∧
    (∀ m ∈ db.messages,
        (∀ r ∈ db.repositories, r.id ≠ m.repository_id) →
        ∀ j ∈ listingRows db limit offset ord, j.msg ≠ m) := by
  constructor
  · intro j hj
    obtain ⟨m, _, r, hr, hid, hjeq⟩ :=
      (mem_joinRows_iff db j).mp (mem_listingRows_subset db limit offset ord j hj)
    exact ⟨r, hr, by rw [hjeq]; exact hid⟩
  · intro m hm hnone j hj hjm
    obtain ⟨m', _, r, hr, hid, hjeq⟩ :=
      (mem_joinRows_iff db j).mp (mem_listingRows_subset db limit offset ord j hj)
    have hmm : m' = m := by rw [hjeq] at hjm; exact hjm
    exact hnone r hr (hmm ▸ hid)

/-- Witness for C10 on a database holding one joined message and one orphan
message with `repository_id = 99`. -/
theorem listing_omits_orphans_witness :
    (∃ r ∈ orphanDB.repositories,
        r.id = ({ msg := mkMsg 1 1 "a" "2025-01-01T00:00:00Z",
                  repository_name := "default" } : JoinedRow).msg.repository_id) ∧
    (∀ j ∈ listingRows orphanDB none 0 .DESC,
        j.msg ≠ mkMsg 2 99 "b" "2025-01-02T00:00:00Z") :=
  ⟨(listing_omits_orphans orphanDB none 0 .DESC).1
      { msg := mkMsg 1 1 "a" "2025-01-01T00:00:00Z", repository_name := "default" }
      (by decide),
   (listing_omits_orphans orphanDB none 0 .DESC).2
      (mkMsg 2 99 "b" "2025-01-02T00:00:00Z") (by decide) (by decide)⟩

end GroupChat
